import Mathlib

/-!
Shallow embedding of the WallhavenAPI client (wallhavenapi/wallhavenapi.py).

HTTP transport, the OS path functions and the filesystem are boundary
collaborators: they are modelled as explicit parameters (a trace of
per-attempt outcomes for the transport, abstract path functions for the OS),
and the client code is translated statement by statement.  Each request
method additionally produces an event log recording every HTTP attempt
issued and every sleep performed, so that retry-counting claims can be
stated about the log.
-/

namespace Wallhaven

/-- Python dict values as needed by the client: JSON replies are nested
string-keyed dicts whose leaves here are strings (the download path). -/
inductive PyVal where
  | str : String → PyVal
  | dict : List (String × PyVal) → PyVal

/-- Python dict assignment on an insertion-ordered association list:
replace in place when the key exists, append otherwise. -/
def dictSet (k v : String) : List (String × String) → List (String × String)
  | [] => [(k, v)]
  | (k0, v0) :: rest => if k0 = k then (k, v) :: rest else (k0, v0) :: dictSet k v rest

/-- Python dict lookup on an association list. -/
def dictGet (k : String) : List (String × String) → Option String
  | [] => none
  | (k0, v0) :: rest => if k0 = k then some v0 else dictGet k rest

/-- Lookup in a PyVal dict entry list (dict indexing). -/
def pyGet (k : String) : List (String × PyVal) → Option PyVal
  | [] => none
  | (k0, v0) :: rest => if k0 = k then some v0 else pyGet k rest

/-- Python truthiness of an optional string: None and the empty string are falsy. -/
def strTruthy : Option String → Bool
  | none => false
  | some s => s ≠ ""

/-- Python str.rstrip with a single strip character: remove all trailing
occurrences of that character. -/
def rstripChar (s : String) (c : Char) : String :=
  ⟨(s.data.reverse.dropWhile (fun x => x == c)).reverse⟩

/-- Python str.join semantics. -/
def pyJoin (sep : String) : List String → String
  | [] => ""
  | [a] => a
  | a :: b :: rest => a ++ sep ++ pyJoin sep (b :: rest)

/-- WallhavenAPI._format_url: strip trailing slashes from the base URL, add a
single slash, then join the (already stringified) path components with
slashes. -/
def _format_url (base_url : String) (args : List String) : String :=
  let url := rstripChar base_url '/' ++ "/"
  url ++ pyJoin "/" args

/-- Python int() of a bool. -/
def pyIntOfBool (b : Bool) : Nat := if b then 1 else 0

/-- WallhavenAPI._category: category flags rendered as a three character
string, positions fixed as general, anime, people. -/
def _category (general anime people : Bool) : String :=
  toString (pyIntOfBool general) ++ toString (pyIntOfBool anime) ++ toString (pyIntOfBool people)

/-- WallhavenAPI._purity: purity flags rendered as a three character string,
positions fixed as sfw, sketchy, nsfw. -/
def _purity (sfw sketchy nsfw : Bool) : String :=
  toString (pyIntOfBool sfw) ++ toString (pyIntOfBool sketchy) ++ toString (pyIntOfBool nsfw)

/-- A Union of a single value and a list of values, as Python accepts for
categories, purities, resolutions and ratios. -/
inductive OneOrMany (α : Type) where
  | one : α → OneOrMany α
  | many : List α → OneOrMany α

/-- The isinstance-list normalization: a non-list value becomes a one-element list. -/
def OneOrMany.toList {α : Type} : OneOrMany α → List α
  | .one a => [a]
  | .many l => l

/-- Python truthiness of an optional OneOrMany: a bare value (enum member,
tuple) is truthy; a list is truthy when non-empty. -/
def OneOrMany.truthy {α : Type} : Option (OneOrMany α) → Bool
  | none => false
  | some (.one _) => true
  | some (.many l) => !l.isEmpty

/-- WallhavenAPI._format_dimensions: a single pair or a list of pairs rendered
as comma separated WxH items. -/
def _format_dimensions (dims : OneOrMany (Int × Int)) : String :=
  pyJoin "," (dims.toList.map fun wh => toString wh.1 ++ "x" ++ toString wh.2)

/-- Category enum. -/
inductive Category where
  | general | anime | people
deriving DecidableEq

/-- Purity enum. -/
inductive Purity where
  | sfw | sketchy | nsfw
deriving DecidableEq

/-- Sorting enum with its literal API tokens. -/
inductive Sorting where
  | date_added | relevance | random | views | favorites | toplist
deriving DecidableEq

/-- Value tokens of the Sorting enum. -/
def Sorting.val : Sorting → String
  | .date_added => "date_added"
  | .relevance => "relevance"
  | .random => "random"
  | .views => "views"
  | .favorites => "favorites"
  | .toplist => "toplist"

/-- Order enum. -/
inductive Order where
  | desc | asc
deriving DecidableEq

/-- Value tokens of the Order enum. -/
def Order.val : Order → String
  | .desc => "desc"
  | .asc => "asc"

/-- TopRange enum. -/
inductive TopRange where
  | one_day | three_days | one_week | one_month | three_months | six_months | one_year
deriving DecidableEq

/-- Value tokens of the TopRange enum. -/
def TopRange.val : TopRange → String
  | .one_day => "1d"
  | .three_days => "3d"
  | .one_week => "1w"
  | .one_month => "1M"
  | .three_months => "3M"
  | .six_months => "6M"
  | .one_year => "1y"

/-- Color enum: the palette of predefined hex codes. -/
inductive Color where
  | lonestar | red_berry | guardsman_red | persian_red | french_rose | plum
  | royal_purple | sapphire | science_blue | pacific_blue | downy | atlantis
  | limeade | verdun_green | verdun_green_2 | olive | earls_green | yellow
  | sunglow | orange_peel | blaze_orange | tuscany | potters_clay
  | nutmeg_wood_finish | black | dusty_gray | silver | white | gun_powder
deriving DecidableEq

/-- Value tokens of the Color enum. -/
def Color.val : Color → String
  | .lonestar => "660000"
  | .red_berry => "990000"
  | .guardsman_red => "cc0000"
  | .persian_red => "cc3333"
  | .french_rose => "ea4c88"
  | .plum => "993399"
  | .royal_purple => "663399"
  | .sapphire => "333399"
  | .science_blue => "0066cc"
  | .pacific_blue => "0099cc"
  | .downy => "66cccc"
  | .atlantis => "77cc33"
  | .limeade => "669900"
  | .verdun_green => "336600"
  | .verdun_green_2 => "666600"
  | .olive => "999900"
  | .earls_green => "cccc33"
  | .yellow => "ffff00"
  | .sunglow => "ffcc33"
  | .orange_peel => "ff9900"
  | .blaze_orange => "ff6600"
  | .tuscany => "cc6633"
  | .potters_clay => "996633"
  | .nutmeg_wood_finish => "663300"
  | .black => "000000"
  | .dusty_gray => "999999"
  | .silver => "cccccc"
  | .white => "ffffff"
  | .gun_powder => "424153"

/-- Client configuration: the WallhavenAPI constructor fields.  Delays are
rationals (seconds).  The retry budget requestslimit_timeout is an optional
pair of max attempts and inter-attempt delay; only None is falsy in the
Python conditional expressions reading it. -/
structure WallhavenAPI where
  api_key : Option String := none
  verify_connection : Bool := true
  base_url : String := "https://wallhaven.cc/api/v1"
  timeout : Int × Int := (2, 5)
  requestslimit_timeout : Option (Int × Rat) := none
  proxies : List (String × String) := []

/-- max_retries as read at the top of _request and _raw_request:
the first component of the budget when one is configured, else 1. -/
def max_retries (cfg : WallhavenAPI) : Int :=
  match cfg.requestslimit_timeout with
  | some t => t.1
  | none => 1

/-- delay as read at the top of _request and _raw_request:
the second component of the budget when one is configured, else 0. -/
def delay (cfg : WallhavenAPI) : Rat :=
  match cfg.requestslimit_timeout with
  | some t => t.2
  | none => 0

/-- An HTTP response as the client observes it: status code, URL, the result
of calling response.json() (Except carries the decode error text), and the
chunk sequence that iter_content yields for streamed bodies. -/
structure HTTPResponse where
  status_code : Int
  url : String := ""
  json : Except String PyVal := .error ""
  chunks : List (List Nat) := []

/-- Outcome of one call into the HTTP library: either a raised
requests.RequestException with its message, or a response. -/
inductive AttemptOutcome where
  | transportError : String → AttemptOutcome
  | response : HTTPResponse → AttemptOutcome

/-- The exception taxonomy of the client, with the constructor arguments the
source passes (message override and status code). -/
inductive ApiError where
  | requestsLimitError : Option String → Int → ApiError
  | apiKeyError : Option String → Int → ApiError
  | noWallpaperError : String → Option String → Int → ApiError
  | unhandledException : Option String → Option Int → ApiError

/-- Observable side effects of the transport layer: a structured HTTP attempt
with its method, URL and query parameters; a raw streaming GET; a sleep. -/
inductive Event where
  | structuredRequest : String → String → List (String × String) → Event
  | rawGet : String → Event
  | sleep : Rat → Event

/-- Result of _request: a parsed JSON value or the raw response handle. -/
inductive ReqResult where
  | json : PyVal → ReqResult
  | raw : HTTPResponse → ReqResult

/-- The per-attempt API key injection at the top of the _request loop body:
when the configured key is truthy, set params of apikey to it. -/
def injectApiKey (cfg : WallhavenAPI) (params : List (String × String)) :
    List (String × String) :=
  match cfg.api_key with
  | some k => if k = "" then params else dictSet "apikey" k params
  | none => params

/-- The attempt loop of WallhavenAPI._request.  The Python loop runs attempt
over range(max_retries); here fuel counts the attempts still allowed after
the current one, so the last-attempt test attempt == max_retries - 1 is
fuel = 0, and the fuel-exhausted base case is the defensive raise after the
loop.  The event log records each HTTP attempt issued and each sleep. -/
def requestAttempt (cfg : WallhavenAPI) (trace : Nat → AttemptOutcome) (to_json : Bool)
    (method url : String) :
    Nat → Nat → List (String × String) → List Event × Except ApiError ReqResult
  | _, 0, _ =>
      ([], .error (.unhandledException (some "Request failed after all retry attempts.") none))
  | attempt, fuel + 1, params =>
    let params := injectApiKey cfg params
    match trace attempt with
    | .transportError msg =>
      if fuel = 0 then
        ([.structuredRequest method url params],
         .error (.unhandledException (some ("Request failed: " ++ msg)) none))
      else
        let rest := requestAttempt cfg trace to_json method url (attempt + 1) fuel params
        (.structuredRequest method url params :: .sleep (delay cfg) :: rest.1, rest.2)
    | .response r =>
      if r.status_code = 429 then
        if fuel = 0 then
          ([.structuredRequest method url params],
           .error (.requestsLimitError none r.status_code))
        else
          let rest := requestAttempt cfg trace to_json method url (attempt + 1) fuel params
          (.structuredRequest method url params :: .sleep (delay cfg) :: rest.1, rest.2)
      else if r.status_code = 401 then
        ([.structuredRequest method url params], .error (.apiKeyError none r.status_code))
      else if r.status_code = 404 then
        ([.structuredRequest method url params],
         .error (.unhandledException (some ("404 Not Found for URL: " ++ r.url))
           (some r.status_code)))
      else if r.status_code ≠ 200 then
        ([.structuredRequest method url params],
         .error (.unhandledException
           (some ("Unexpected status code " ++ toString r.status_code ++ " for URL: " ++ r.url))
           (some r.status_code)))
      else if to_json then
        match r.json with
        | .ok v => ([.structuredRequest method url params], .ok (.json v))
        | .error e =>
          ([.structuredRequest method url params],
           .error (.unhandledException (some ("JSON decode error: " ++ e)) (some r.status_code)))
      else ([.structuredRequest method url params], .ok (.raw r))

/-- WallhavenAPI._request: run the attempt loop with the configured budget. -/
def _request (cfg : WallhavenAPI) (trace : Nat → AttemptOutcome) (to_json : Bool)
    (method url : String) (params : List (String × String)) :
    List Event × Except ApiError ReqResult :=
  requestAttempt cfg trace to_json method url 0 (max_retries cfg).toNat params

/-- The attempt loop of WallhavenAPI._raw_request: a streaming GET, 200
returned as is, 429 retried then RequestsLimitError, any other status an
immediate UnhandledException, transport errors retried then wrapped. -/
def rawAttempt (cfg : WallhavenAPI) (trace : Nat → AttemptOutcome) (url : String) :
    Nat → Nat → List Event × Except ApiError HTTPResponse
  | _, 0 =>
      ([], .error (.unhandledException (some "Failed to download after multiple attempts.") none))
  | attempt, fuel + 1 =>
    match trace attempt with
    | .transportError msg =>
      if fuel = 0 then
        ([.rawGet url], .error (.unhandledException (some ("Request failed: " ++ msg)) none))
      else
        let rest := rawAttempt cfg trace url (attempt + 1) fuel
        (.rawGet url :: .sleep (delay cfg) :: rest.1, rest.2)
    | .response r =>
      if r.status_code = 200 then ([.rawGet url], .ok r)
      else if r.status_code = 429 then
        if fuel = 0 then
          ([.rawGet url], .error (.requestsLimitError none 429))
        else
          let rest := rawAttempt cfg trace url (attempt + 1) fuel
          (.rawGet url :: .sleep (delay cfg) :: rest.1, rest.2)
      else
        ([.rawGet url],
         .error (.unhandledException
           (some ("Unexpected status code " ++ toString r.status_code ++ " for URL: " ++ url))
           (some r.status_code)))

/-- WallhavenAPI._raw_request: run the raw attempt loop with the configured budget. -/
def _raw_request (cfg : WallhavenAPI) (trace : Nat → AttemptOutcome) (url : String) :
    List Event × Except ApiError HTTPResponse :=
  rawAttempt cfg trace url 0 (max_retries cfg).toNat

/-- The keyword arguments of WallhavenAPI.search that feed the query
parameter dict, with the Python Optional defaults. -/
structure SearchArgs where
  q : Option String := none
  categories : Option (OneOrMany Category) := none
  purities : Option (OneOrMany Purity) := none
  sorting : Option Sorting := none
  order : Option Order := none
  top_range : Option TopRange := none
  atleast : Option (Int × Int) := none
  resolutions : Option (OneOrMany (Int × Int)) := none
  ratios : Option (OneOrMany (Int × Int)) := none
  colors : Option Color := none
  page : Option Int := none
  seed : Option String := none

/-- One Python statement of the form `if x: params of k = v`: assign when the
guard is truthy, leave the dict unchanged otherwise. -/
def setWhen (c : Bool) (k v : String) (l : List (String × String)) :
    List (String × String) :=
  if c then dictSet k v l else l

/-- Python truthiness of an optional integer: None and zero are falsy. -/
def intTruthy : Option Int → Bool
  | none => false
  | some p => p ≠ 0

/-- The params dict built by WallhavenAPI.search, assignment by assignment in
source order; each Python `if x:` guard is the truthiness of the optional
argument (None, empty string, empty list and zero are falsy; enum members and
pairs are always truthy). -/
def search_params (a : SearchArgs) : List (String × String) :=
  let ps : List (String × String) := []
  let ps := setWhen (strTruthy a.q) "q" (a.q.getD "") ps
  let cs := (a.categories.getD (.many [])).toList
  let ps := setWhen (OneOrMany.truthy a.categories) "categories"
    (_category (cs.contains Category.general) (cs.contains Category.anime)
      (cs.contains Category.people)) ps
  let pu := (a.purities.getD (.many [])).toList
  let ps := setWhen (OneOrMany.truthy a.purities) "purity"
    (_purity (pu.contains Purity.sfw) (pu.contains Purity.sketchy)
      (pu.contains Purity.nsfw)) ps
  let ps := setWhen a.sorting.isSome "sorting" ((a.sorting.map Sorting.val).getD "") ps
  let ps := setWhen a.order.isSome "order" ((a.order.map Order.val).getD "") ps
  let ps := setWhen a.top_range.isSome "topRange" ((a.top_range.map TopRange.val).getD "") ps
  let wh := a.atleast.getD (0, 0)
  let ps := setWhen a.atleast.isSome "atleast" (toString wh.1 ++ "x" ++ toString wh.2) ps
  let ps := setWhen (OneOrMany.truthy a.resolutions) "resolutions"
    (_format_dimensions (a.resolutions.getD (.many []))) ps
  let ps := setWhen (OneOrMany.truthy a.ratios) "ratios"
    (_format_dimensions (a.ratios.getD (.many []))) ps
  let ps := setWhen a.colors.isSome "colors" ((a.colors.map Color.val).getD "") ps
  let ps := setWhen (intTruthy a.page) "page" (toString (a.page.getD 0)) ps
  let ps := setWhen (strTruthy a.seed) "seed" (a.seed.getD "") ps
  ps

/-- WallhavenAPI.search: a structured GET to the search endpoint with the
built params dict. -/
def search (cfg : WallhavenAPI) (trace : Nat → AttemptOutcome) (a : SearchArgs) :
    List Event × Except ApiError ReqResult :=
  _request cfg trace true "get" (_format_url cfg.base_url ["search"]) (search_params a)

/-- WallhavenAPI.wallpaper: a structured GET to w/{id}; an UnhandledException
whose status_code is 404 is converted to NoWallpaperError(id), every other
outcome is passed through. -/
def wallpaper (cfg : WallhavenAPI) (trace : Nat → AttemptOutcome) (wallpaper_id : String) :
    List Event × Except ApiError ReqResult :=
  let res := _request cfg trace true "get" (_format_url cfg.base_url ["w", wallpaper_id]) []
  match res.2 with
  | .error (.unhandledException msg sc) =>
    if sc = some 404 then (res.1, .error (.noWallpaperError wallpaper_id none 404))
    else (res.1, .error (.unhandledException msg sc))
  | r => (res.1, r)

/-- WallhavenAPI.is_wallpaper_exists: True on success, False on
NoWallpaperError, every other exception propagates. -/
def is_wallpaper_exists (cfg : WallhavenAPI) (trace : Nat → AttemptOutcome)
    (wallpaper_id : String) : List Event × Except ApiError Bool :=
  let res := wallpaper cfg trace wallpaper_id
  match res.2 with
  | .ok _ => (res.1, .ok true)
  | .error (.noWallpaperError _ _ _) => (res.1, .ok false)
  | .error e => (res.1, .error e)

/-- The wallpaper_data dict indexing in download_wallpaper:
wallpaper_data of data of path, when it resolves to a string URL. -/
def dataPath : PyVal → Option String
  | .dict es =>
    match pyGet "data" es with
    | some (.dict ds) =>
      match pyGet "path" ds with
      | some (.str p) => some p
      | _ => none
    | _ => none
  | _ => none

/-- A binary file write as download_wallpaper performs it: the directory
passed to os.makedirs, the file path opened, and the bytes written. -/
structure FSWrite where
  dir_created : String
  path : String
  content : List Nat

/-- Terminal outcome of download_wallpaper: a propagated exception, an
uncaught envelope-indexing error, a file saved (with the write performed and
the returned absolute path), or the accumulated bytes returned. -/
inductive DownloadOutcome where
  | error : ApiError → DownloadOutcome
  | lookupError : DownloadOutcome
  | saved : String → FSWrite → DownloadOutcome
  | content : List Nat → DownloadOutcome

/-- WallhavenAPI.download_wallpaper.  os.path.abspath and os.path.dirname are
boundary parameters; iter_content is represented by the chunk list of the
streamed response (the chunk_size argument only tunes that chunking).  With a
truthy file_path the non-empty chunks are written in order and the absolute
path returned; otherwise all chunks are joined and returned. -/
def download_wallpaper (cfg : WallhavenAPI) (metaTrace rawTrace : Nat → AttemptOutcome)
    (abspath dirname : String → String) (wallpaper_id : String)
    (file_path : Option String) : List Event × DownloadOutcome :=
  let meta := wallpaper cfg metaTrace wallpaper_id
  match meta.2 with
  | .error e => (meta.1, .error e)
  | .ok (.raw _) => (meta.1, .lookupError)
  | .ok (.json env) =>
    match dataPath env with
    | none => (meta.1, .lookupError)
    | some url =>
      let dl := _raw_request cfg rawTrace url
      match dl.2 with
      | .error e => (meta.1 ++ dl.1, .error e)
      | .ok resp =>
        match file_path with
        | some fp =>
          if fp = "" then (meta.1 ++ dl.1, .content resp.chunks.flatten)
          else
            let save_path := abspath fp
            (meta.1 ++ dl.1,
             .saved save_path
               ⟨dirname save_path, save_path, (resp.chunks.filter fun c => !c.isEmpty).flatten⟩)
        | none => (meta.1 ++ dl.1, .content resp.chunks.flatten)

/-- WallhavenAPI.settings: a local ApiKeyError guard when api_key is None,
otherwise a structured GET to the settings endpoint. -/
def settings (cfg : WallhavenAPI) (trace : Nat → AttemptOutcome) :
    List Event × Except ApiError ReqResult :=
  match cfg.api_key with
  | none => ([], .error (.apiKeyError (some "API key required to retrieve settings.") 401))
  | some _ => _request cfg trace true "get" (_format_url cfg.base_url ["settings"]) []

/-- WallhavenAPI.my_collections: a local ApiKeyError guard when api_key is
None, otherwise a structured GET to the collections endpoint. -/
def my_collections (cfg : WallhavenAPI) (trace : Nat → AttemptOutcome) :
    List Event × Except ApiError ReqResult :=
  match cfg.api_key with
  | none => ([], .error (.apiKeyError (some "API key required to retrieve collections.") 401))
  | some _ => _request cfg trace true "get" (_format_url cfg.base_url ["collections"]) []

/-- WallhavenAPI.collection_wallpapers: params holds page stringified when
page is not None, else the empty dict; then a structured GET to
collections/{user}/{collection}. -/
def collection_wallpapers (cfg : WallhavenAPI) (trace : Nat → AttemptOutcome)
    (user_name collection_id : String) (page : Option Int) :
    List Event × Except ApiError ReqResult :=
  let params := match page with | some p => [("page", toString p)] | none => []
  _request cfg trace true "get"
    (_format_url cfg.base_url ["collections", user_name, collection_id]) params

/-- Holds of an attempt outcome that is an HTTP 429 response. -/
def all429 (o : AttemptOutcome) : Bool :=
  match o with
  | .response r => r.status_code == 429
  | .transportError _ => false

/-- Holds of an UnhandledException carrying status code 404, the condition
wallpaper checks before converting to NoWallpaperError. -/
def is_unhandled_404 : ApiError → Bool
  | .unhandledException _ sc => sc == some 404
  | _ => false

/-- Holds of a NoWallpaperError, the exception is_wallpaper_exists swallows. -/
def isNoWallpaper : ApiError → Bool
  | .noWallpaperError _ _ _ => true
  | _ => false

/-! Concrete fixtures used by the witness theorems: mocked responses, traces
and client configurations. -/

/-- A client with all constructor defaults: no key, no retry budget. -/
def cfgDefault : WallhavenAPI := {}

/-- A mocked rate-limited response. -/
def resp429 : HTTPResponse := { status_code := 429 }

/-- A trace whose every attempt is rate limited. -/
def trace429 : Nat → AttemptOutcome := fun _ => .response resp429

/-- A mocked unauthorized response. -/
def resp401 : HTTPResponse := { status_code := 401 }

/-- A trace whose every attempt is unauthorized. -/
def trace401 : Nat → AttemptOutcome := fun _ => .response resp401

/-- A mocked not-found response on the wallpaper metadata endpoint. -/
def resp404 : HTTPResponse :=
  { status_code := 404, url := "https://wallhaven.cc/api/v1/w/abc123" }

/-- A trace whose every attempt is a 404. -/
def trace404 : Nat → AttemptOutcome := fun _ => .response resp404

/-- A client with a retry budget of two attempts and a tenth of a second delay. -/
def cfgBudget : WallhavenAPI := { requestslimit_timeout := some (2, 1/10) }

/-- A client whose retry budget allows zero attempts. -/
def cfgZero : WallhavenAPI := { requestslimit_timeout := some (0, 1) }

/-- A mocked metadata envelope resolving to an asset URL. -/
def envW : PyVal := .dict [("data", .dict [("path", .str "https://w.wallhaven.cc/full/x.jpg")])]

/-- A successful JSON response carrying the metadata envelope. -/
def respMeta : HTTPResponse := { status_code := 200, json := .ok envW }

/-- A trace answering every attempt with the metadata envelope. -/
def traceMeta : Nat → AttemptOutcome := fun _ => .response respMeta

/-- A successful streamed response with three chunks, one of them empty. -/
def respChunks : HTTPResponse := { status_code := 200, chunks := [[1, 2], [], [3]] }

/-- A trace answering every attempt with the streamed chunks. -/
def traceChunks : Nat → AttemptOutcome := fun _ => .response respChunks

/-- A successful response whose body is an empty JSON object. -/
def respOkJson : HTTPResponse := { status_code := 200, json := .ok (.dict []) }

/-- A trace answering every attempt with the empty JSON object. -/
def traceOkJson : Nat → AttemptOutcome := fun _ => .response respOkJson

/-- Search arguments selecting only a page number. -/
def argsPage : SearchArgs := { page := some 2 }

/-- A mocked os.path.abspath. -/
def absW : String → String := fun s => "/home/user/" ++ s

/-- A mocked os.path.dirname. -/
def dirW : String → String := fun _ => "/home/user"

/-! Helper lemmas about the dict operations and the URL builder. -/

theorem dictGet_dictSet_self (k v : String) (l : List (String × String)) :
    dictGet k (dictSet k v l) = some v := by
  induction l with
  | nil => simp [dictSet, dictGet]
  | cons hd tl ih =>
    obtain ⟨k0, v0⟩ := hd
    by_cases h : k0 = k
    · simp [dictSet, dictGet, h]
    · simp [dictSet, dictGet, h, ih]

theorem dictGet_dictSet_ne (k k0 v : String) (l : List (String × String)) (h : k0 ≠ k) :
    dictGet k (dictSet k0 v l) = dictGet k l := by
  induction l with
  | nil => simp [dictSet, dictGet, h]
  | cons hd tl ih =>
    obtain ⟨k1, v1⟩ := hd
    by_cases h1 : k1 = k0
    · subst h1; simp [dictSet, dictGet, h]
    · by_cases h2 : k1 = k
      · subst h2; simp [dictSet, dictGet, h1, h]
      · simp [dictSet, dictGet, h1, h2, ih]

theorem dictSet_dictSet_self (k v : String) (l : List (String × String)) :
    dictSet k v (dictSet k v l) = dictSet k v l := by
  induction l with
  | nil => simp [dictSet]
  | cons hd tl ih =>
    obtain ⟨k0, v0⟩ := hd
    by_cases h : k0 = k
    · simp [dictSet, h]
    · simp [dictSet, h, ih]

theorem injectApiKey_idem (cfg : WallhavenAPI) (params : List (String × String)) :
    injectApiKey cfg (injectApiKey cfg params) = injectApiKey cfg params := by
  unfold injectApiKey
  cases cfg.api_key with
  | none => rfl
  | some k =>
    by_cases h : k = ""
    · simp [h]
    · simp [h, dictSet_dictSet_self]

theorem dictGet_injectApiKey (cfg : WallhavenAPI) (k : String)
    (params : List (String × String)) (h : k ≠ "apikey") :
    dictGet k (injectApiKey cfg params) = dictGet k params := by
  unfold injectApiKey
  cases cfg.api_key with
  | none => rfl
  | some key =>
    by_cases hk : key = ""
    · simp [hk]
    · simp [hk, dictGet_dictSet_ne _ _ _ _ (fun hh => h hh.symm)]

theorem dictGet_setWhen_ne (k k0 v : String) (c : Bool) (l : List (String × String))
    (h : k0 ≠ k) : dictGet k (setWhen c k0 v l) = dictGet k l := by
  cases c <;> simp [setWhen, dictGet_dictSet_ne _ _ _ _ h]

theorem dictGet_setWhen_self (k v : String) (l : List (String × String)) :
    dictGet k (setWhen true k v l) = some v := by
  simp [setWhen, dictGet_dictSet_self]

/-- The head of a dropWhile never satisfies the dropped predicate. -/
theorem head_dropWhile_false (p : Char → Bool) :
    ∀ l : List Char, ∀ c : Char, (l.dropWhile p).head? = some c → p c = false := by
  intro l
  induction l with
  | nil => intro c h; simp [List.dropWhile] at h
  | cons a t ih =>
    intro c h
    cases hpa : p a with
    | true =>
      rw [List.dropWhile_cons_of_pos hpa] at h
      exact ih c h
    | false =>
      rw [List.dropWhile_cons_of_neg (by simp [hpa])] at h
      simp at h
      rw [← h]
      exact hpa

/-- rstripChar only removes trailing copies of the strip character, and the
result never ends in that character. -/
theorem rstripChar_strips (s : String) (c : Char) :
    (∃ k, s.data = (rstripChar s c).data ++ List.replicate k c) ∧
    (rstripChar s c).data.getLast? ≠ some c := by
  have hdata : (rstripChar s c).data = (s.data.reverse.dropWhile (fun x => x == c)).reverse := rfl
  constructor
  · have htake : s.data.reverse.takeWhile (fun x => x == c) =
        List.replicate (s.data.reverse.takeWhile (fun x => x == c)).length c := by
      rw [List.eq_replicate_iff]
      exact ⟨rfl, fun b hb => by simpa using List.mem_takeWhile_imp hb⟩
    have hsplit := List.takeWhile_append_dropWhile (fun x => x == c) s.data.reverse
    have h2 : s.data = (s.data.reverse.dropWhile (fun x => x == c)).reverse ++
        (s.data.reverse.takeWhile (fun x => x == c)).reverse := by
      conv_lhs => rw [← List.reverse_reverse s.data, ← hsplit]
      rw [List.reverse_append]
    have htakerev : (s.data.reverse.takeWhile (fun x => x == c)).reverse =
        List.replicate (s.data.reverse.takeWhile (fun x => x == c)).length c := by
      conv_lhs => rw [htake]
      rw [List.reverse_replicate]
    refine ⟨(s.data.reverse.takeWhile (fun x => x == c)).length, ?_⟩
    rw [hdata]
    conv_lhs => rw [h2]
    rw [htakerev]
  · intro h
    rw [show (rstripChar s c).data = (s.data.reverse.dropWhile (fun x => x == c)).reverse
        from rfl, List.getLast?_reverse] at h
    have := head_dropWhile_false (fun x => x == c) s.data.reverse c h
    simp at this

/-- C7: for all boolean triplets, the category and purity encoders return the
three character 0/1 string whose positions record the flags in the fixed
orders (general, anime, people) and (sfw, sketchy, nsfw). -/
theorem category_purity_positional (a b c : Bool) :
    (_category a b c).data =
      [if a then '1' else '0', if b then '1' else '0', if c then '1' else '0'] ∧
    (_purity a b c).data =
      [if a then '1' else '0', if b then '1' else '0', if c then '1' else '0'] := by
  cases a <;> cases b <;> cases c <;> exact ⟨rfl, rfl⟩

/-- Prepending the separator to a Python join of a non-empty list gives each
element preceded by exactly one copy of the separator. -/
theorem slash_pyJoin (segs : List String) (h : segs ≠ []) :
    "/" ++ pyJoin "/" segs = segs.foldr (fun s acc => "/" ++ s ++ acc) "" := by
  induction segs with
  | nil => cases h rfl
  | cons a t ih =>
    cases t with
    | nil =>
      show "/" ++ pyJoin "/" [a] = "/" ++ a ++ ""
      apply String.ext
      simp [pyJoin]
    | cons b t2 =>
      have hrec := ih (by simp)
      show "/" ++ (a ++ "/" ++ pyJoin "/" (b :: t2)) =
        "/" ++ a ++ ((b :: t2).foldr (fun s acc => "/" ++ s ++ acc) "")
      rw [← hrec]
      apply String.ext
      simp

/-- C8: for every base and non-empty segment list, _format_url returns the
base with all trailing slashes stripped followed by each segment preceded by
exactly one slash; the stripped base never ends in a slash and differs from
the base only by removed trailing slashes. -/
theorem format_url_joins (base : String) (segs : List String) (h : segs ≠ []) :
    _format_url base segs =
      rstripChar base '/' ++ segs.foldr (fun s acc => "/" ++ s ++ acc) "" ∧
    (∃ k, base.data = (rstripChar base '/').data ++ List.replicate k '/') ∧
    (rstripChar base '/').data.getLast? ≠ some '/' := by
  refine ⟨?_, (rstripChar_strips base '/').1, (rstripChar_strips base '/').2⟩
  show rstripChar base '/' ++ "/" ++ pyJoin "/" segs = _
  rw [← slash_pyJoin segs h]
  apply String.ext
  simp

/-- C8 witness: the concrete instance for a base ending in slashes. -/
theorem format_url_joins_witness :
    _format_url "https://wallhaven.cc/api/v1//" ["search"] =
      rstripChar "https://wallhaven.cc/api/v1//" '/' ++
        (["search"].foldr (fun s acc => "/" ++ s ++ acc) "") ∧
    (∃ k, ("https://wallhaven.cc/api/v1//" : String).data =
      (rstripChar "https://wallhaven.cc/api/v1//" '/').data ++ List.replicate k '/') ∧
    (rstripChar "https://wallhaven.cc/api/v1//" '/').data.getLast? ≠ some '/' :=
  format_url_joins "https://wallhaven.cc/api/v1//" ["search"] (by simp)

/-! Retry loop lemmas. -/

/-- A trace of all-429 outcomes yields a 429 response at every index. -/
theorem all429_response (trace : Nat → AttemptOutcome) (h : ∀ n, all429 (trace n) = true)
    (n : Nat) : ∃ r, trace n = .response r ∧ r.status_code = 429 := by
  have ha := h n
  cases htr : trace n with
  | transportError m => rw [htr] at ha; simp [all429] at ha
  | response r =>
    rw [htr] at ha
    simp [all429] at ha
    exact ⟨r, rfl, ha⟩

/-- One non-final step of the _request loop under a 429 response: the attempt
is issued, the delay is slept, and the loop retries. -/
theorem requestAttempt_429_step (cfg : WallhavenAPI) (trace : Nat → AttemptOutcome)
    (to_json : Bool) (method url : String) (attempt m : Nat)
    (params : List (String × String)) (r : HTTPResponse)
    (hr : trace attempt = .response r) (h429 : r.status_code = 429) :
    requestAttempt cfg trace to_json method url attempt (m + 2) params =
      (Event.structuredRequest method url (injectApiKey cfg params) ::
        Event.sleep (delay cfg) ::
        (requestAttempt cfg trace to_json method url (attempt + 1) (m + 1)
          (injectApiKey cfg params)).1,
       (requestAttempt cfg trace to_json method url (attempt + 1) (m + 1)
         (injectApiKey cfg params)).2) := by
  conv_lhs => rw [requestAttempt]
  rw [hr]
  simp [h429]

/-- The final attempt of the _request loop under a 429 response raises
RequestsLimitError with no further sleep. -/
theorem requestAttempt_429_last (cfg : WallhavenAPI) (trace : Nat → AttemptOutcome)
    (to_json : Bool) (method url : String) (attempt : Nat)
    (params : List (String × String)) (r : HTTPResponse)
    (hr : trace attempt = .response r) (h429 : r.status_code = 429) :
    requestAttempt cfg trace to_json method url attempt 1 params =
      ([Event.structuredRequest method url (injectApiKey cfg params)],
       .error (.requestsLimitError none 429)) := by
  conv_lhs => rw [requestAttempt]
  rw [hr]
  simp [h429]

/-- Under an all-429 trace the _request loop with fuel attempts issues exactly
fuel HTTP attempts interleaved with fuel - 1 sleeps and fails with
RequestsLimitError. -/
theorem requestAttempt_all429 (cfg : WallhavenAPI) (trace : Nat → AttemptOutcome)
    (to_json : Bool) (method url : String) (h : ∀ n, all429 (trace n) = true) :
    ∀ fuel, fuel ≠ 0 → ∀ attempt params,
      requestAttempt cfg trace to_json method url attempt fuel params =
        ((List.replicate (fuel - 1)
            [Event.structuredRequest method url (injectApiKey cfg params),
             Event.sleep (delay cfg)]).flatten
          ++ [Event.structuredRequest method url (injectApiKey cfg params)],
         .error (.requestsLimitError none 429)) := by
  intro fuel
  induction fuel with
  | zero => intro h0; exact absurd rfl h0
  | succ n ih =>
    intro _ attempt params
    obtain ⟨r, hr, h429⟩ := all429_response trace h attempt
    cases n with
    | zero => simpa using requestAttempt_429_last cfg trace to_json method url attempt params r hr h429
    | succ m =>
      have hrec := ih (Nat.succ_ne_zero m) (attempt + 1) (injectApiKey cfg params)
      rw [injectApiKey_idem] at hrec
      rw [requestAttempt_429_step cfg trace to_json method url attempt m params r hr h429, hrec]
      simp [List.replicate_succ]

/-- One non-final step of the _raw_request loop under a 429 response. -/
theorem rawAttempt_429_step (cfg : WallhavenAPI) (trace : Nat → AttemptOutcome)
    (url : String) (attempt m : Nat) (r : HTTPResponse)
    (hr : trace attempt = .response r) (h429 : r.status_code = 429) :
    rawAttempt cfg trace url attempt (m + 2) =
      (Event.rawGet url :: Event.sleep (delay cfg) ::
        (rawAttempt cfg trace url (attempt + 1) (m + 1)).1,
       (rawAttempt cfg trace url (attempt + 1) (m + 1)).2) := by
  conv_lhs => rw [rawAttempt]
  rw [hr]
  simp [h429]

/-- The final attempt of the _raw_request loop under a 429 response. -/
theorem rawAttempt_429_last (cfg : WallhavenAPI) (trace : Nat → AttemptOutcome)
    (url : String) (attempt : Nat) (r : HTTPResponse)
    (hr : trace attempt = .response r) (h429 : r.status_code = 429) :
    rawAttempt cfg trace url attempt 1 =
      ([Event.rawGet url], .error (.requestsLimitError none 429)) := by
  conv_lhs => rw [rawAttempt]
  rw [hr]
  simp [h429]

/-- Under an all-429 trace the _raw_request loop with fuel attempts issues
exactly fuel raw GETs interleaved with fuel - 1 sleeps and fails with
RequestsLimitError. -/
theorem rawAttempt_all429 (cfg : WallhavenAPI) (trace : Nat → AttemptOutcome)
    (url : String) (h : ∀ n, all429 (trace n) = true) :
    ∀ fuel, fuel ≠ 0 → ∀ attempt,
      rawAttempt cfg trace url attempt fuel =
        ((List.replicate (fuel - 1) [Event.rawGet url, Event.sleep (delay cfg)]).flatten
          ++ [Event.rawGet url],
         .error (.requestsLimitError none 429)) := by
  intro fuel
  induction fuel with
  | zero => intro h0; exact absurd rfl h0
  | succ n ih =>
    intro _ attempt
    obtain ⟨r, hr, h429⟩ := all429_response trace h attempt
    cases n with
    | zero => simpa using rawAttempt_429_last cfg trace url attempt r hr h429
    | succ m =>
      have hrec := ih (Nat.succ_ne_zero m) (attempt + 1)
      rw [rawAttempt_429_step cfg trace url attempt m r hr h429, hrec]
      simp [List.replicate_succ]

/-- C1: with a configured retry budget of maxAttempts at least 1 and every
attempt answering HTTP 429, the structured and the raw request each issue
exactly maxAttempts HTTP attempts, sleep the constant configured delay
exactly maxAttempts - 1 times and only between consecutive attempts, and
fail with RequestsLimitError; with no budget configured, exactly one attempt
is made and the delay in effect is zero. -/
theorem retry_budget_429_exhaustion (cfg : WallhavenAPI) (trS trR : Nat → AttemptOutcome)
    (to_json : Bool) (method url rawUrl : String) (params : List (String × String))
    (hS : ∀ n, all429 (trS n) = true) (hR : ∀ n, all429 (trR n) = true) :
    (∀ m d, cfg.requestslimit_timeout = some (m, d) → 1 ≤ m →
      _request cfg trS to_json method url params =
        ((List.replicate (m.toNat - 1)
            [Event.structuredRequest method url (injectApiKey cfg params),
             Event.sleep d]).flatten
          ++ [Event.structuredRequest method url (injectApiKey cfg params)],
         .error (.requestsLimitError none 429)) ∧
      _raw_request cfg trR rawUrl =
        ((List.replicate (m.toNat - 1) [Event.rawGet rawUrl, Event.sleep d]).flatten
          ++ [Event.rawGet rawUrl],
         .error (.requestsLimitError none 429))) ∧
    (cfg.requestslimit_timeout = none →
      delay cfg = 0 ∧
      _request cfg trS to_json method url params =
        ([Event.structuredRequest method url (injectApiKey cfg params)],
         .error (.requestsLimitError none 429)) ∧
      _raw_request cfg trR rawUrl =
        ([Event.rawGet rawUrl], .error (.requestsLimitError none 429))) := by
  constructor
  · intro m d hb hm
    have hmr : max_retries cfg = m := by simp [max_retries, hb]
    have hd : delay cfg = d := by simp [delay, hb]
    have hfuel : m.toNat ≠ 0 := by omega
    constructor
    · rw [_request, hmr, requestAttempt_all429 cfg trS to_json method url hS m.toNat hfuel 0 params, hd]
    · rw [_raw_request, hmr, rawAttempt_all429 cfg trR rawUrl hR m.toNat hfuel 0, hd]
  · intro hb
    have hmr : max_retries cfg = 1 := by simp [max_retries, hb]
    have hd : delay cfg = 0 := by simp [delay, hb]
    refine ⟨hd, ?_, ?_⟩
    · rw [_request, hmr]
      have := requestAttempt_all429 cfg trS to_json method url hS 1 one_ne_zero 0 params
      simpa using this
    · rw [_raw_request, hmr]
      have := rawAttempt_all429 cfg trR rawUrl hR 1 one_ne_zero 0
      simpa using this

/-- C1 witness: a retry budget of two attempts with every attempt returning
429 issues two attempts with one sleep in between and fails with
RequestsLimitError on both request paths. -/
theorem retry_budget_429_exhaustion_witness :
    _request cfgBudget trace429 true "get" "https://wallhaven.cc/api/v1/search" [] =
      ((List.replicate ((2 : Int).toNat - 1)
          [Event.structuredRequest "get" "https://wallhaven.cc/api/v1/search"
            (injectApiKey cfgBudget []), Event.sleep (1/10)]).flatten
        ++ [Event.structuredRequest "get" "https://wallhaven.cc/api/v1/search"
            (injectApiKey cfgBudget [])],
       .error (.requestsLimitError none 429)) ∧
    _raw_request cfgBudget trace429 "https://w.wallhaven.cc/full/x.jpg" =
      ((List.replicate ((2 : Int).toNat - 1)
          [Event.rawGet "https://w.wallhaven.cc/full/x.jpg", Event.sleep (1/10)]).flatten
        ++ [Event.rawGet "https://w.wallhaven.cc/full/x.jpg"],
       .error (.requestsLimitError none 429)) :=
  (retry_budget_429_exhaustion cfgBudget trace429 trace429 true "get"
      "https://wallhaven.cc/api/v1/search" "https://w.wallhaven.cc/full/x.jpg" []
      (fun _ => rfl) (fun _ => rfl)).1 2 (1/10) rfl (by norm_num)

/-- C2: when at least one attempt is allowed and the first HTTP response has
status 401, the structured request fails immediately with ApiKeyError after
exactly one HTTP attempt and no sleep, whatever the retry budget. -/
theorem immediate_401 (cfg : WallhavenAPI) (trace : Nat → AttemptOutcome)
    (to_json : Bool) (method url : String) (params : List (String × String))
    (r : HTTPResponse) (hm : 1 ≤ max_retries cfg)
    (h0 : trace 0 = .response r) (h401 : r.status_code = 401) :
    _request cfg trace to_json method url params =
      ([Event.structuredRequest method url (injectApiKey cfg params)],
       .error (.apiKeyError none 401)) := by
  obtain ⟨k, hk⟩ : ∃ k, (max_retries cfg).toNat = k + 1 :=
    ⟨(max_retries cfg).toNat - 1, by omega⟩
  rw [_request, hk]
  conv_lhs => rw [requestAttempt]
  rw [h0]
  simp [h401]

/-- C2 witness: a first 401 response under a two-attempt budget fails at once
with ApiKeyError after a single attempt. -/
theorem immediate_401_witness :
    _request cfgBudget trace401 true "get" "https://wallhaven.cc/api/v1/settings" [] =
      ([Event.structuredRequest "get" "https://wallhaven.cc/api/v1/settings"
          (injectApiKey cfgBudget [])],
       .error (.apiKeyError none 401)) :=
  immediate_401 cfgBudget trace401 true "get" "https://wallhaven.cc/api/v1/settings" []
    resp401 (by decide) rfl rfl

/-- A wrapped transport error message never equals the post-loop fallback
message of _request. -/
theorem request_failed_msg_ne (msg : String) :
    "Request failed: " ++ msg ≠ "Request failed after all retry attempts." := by
  intro hcontra
  have hd := congrArg String.data hcontra
  rw [String.data_append] at hd
  have h16 := List.take_left ("Request failed: ").data msg.data
  rw [hd] at h16
  exact absurd h16 (by decide)

/-- A wrapped transport error message never equals the post-loop fallback
message of _raw_request. -/
theorem raw_failed_msg_ne (msg : String) :
    "Request failed: " ++ msg ≠ "Failed to download after multiple attempts." := by
  intro hcontra
  have hd := congrArg String.data hcontra
  rw [String.data_append] at hd
  have h16 := List.take_left ("Request failed: ").data msg.data
  rw [hd] at h16
  exact absurd h16 (by decide)

/-- With at least one attempt of fuel, every iteration of the _request loop
terminates in a return, a raise or a retry, so the defensive post-loop raise
is never the outcome. -/
theorem requestAttempt_no_fallthrough (cfg : WallhavenAPI) (trace : Nat → AttemptOutcome)
    (to_json : Bool) (method url : String) :
    ∀ fuel, fuel ≠ 0 → ∀ attempt params,
      (requestAttempt cfg trace to_json method url attempt fuel params).2 ≠
        .error (.unhandledException (some "Request failed after all retry attempts.") none) := by
  intro fuel
  induction fuel with
  | zero => intro h0; exact absurd rfl h0
  | succ n ih =>
    intro _ attempt params
    conv_lhs => rw [requestAttempt]
    cases htr : trace attempt with
    | transportError msg =>
      by_cases hn : n = 0
      · subst hn
        simpa using request_failed_msg_ne msg
      · simpa [hn] using ih hn (attempt + 1) (injectApiKey cfg params)
    | response r =>
      by_cases h429 : r.status_code = 429
      · by_cases hn : n = 0
        · subst hn; simp [h429]
        · simpa [h429, hn] using ih hn (attempt + 1) (injectApiKey cfg params)
      · by_cases h401 : r.status_code = 401
        · simp [h429, h401]
        · by_cases h404 : r.status_code = 404
          · simp [h429, h401, h404]
          · by_cases h200 : r.status_code = 200
            · by_cases hj : to_json
              · cases hjson : r.json <;> simp [h429, h401, h404, h200, hj, hjson]
              · simp [h429, h401, h404, h200, hj]
            · simp [h429, h401, h404, h200]

/-- With at least one attempt of fuel, the defensive post-loop raise of
_raw_request is never the outcome. -/
theorem rawAttempt_no_fallthrough (cfg : WallhavenAPI) (trace : Nat → AttemptOutcome)
    (url : String) :
    ∀ fuel, fuel ≠ 0 → ∀ attempt,
      (rawAttempt cfg trace url attempt fuel).2 ≠
        .error (.unhandledException (some "Failed to download after multiple attempts.") none) := by
  intro fuel
  induction fuel with
  | zero => intro h0; exact absurd rfl h0
  | succ n ih =>
    intro _ attempt
    conv_lhs => rw [rawAttempt]
    cases htr : trace attempt with
    | transportError msg =>
      by_cases hn : n = 0
      · subst hn
        simpa using raw_failed_msg_ne msg
      · simpa [hn] using ih hn (attempt + 1)
    | response r =>
      by_cases h200 : r.status_code = 200
      · simp [h200]
      · by_cases h429 : r.status_code = 429
        · by_cases hn : n = 0
          · subst hn; simp [h200, h429]
          · simpa [h200, h429, hn] using ih hn (attempt + 1)
        · simp [h200, h429]

/-- C10: with any configured budget of at least one attempt the defensive
post-loop raise of _request and of _raw_request is unreachable for every
trace; with a configured budget whose first component is nonpositive both
methods raise the generic fallback UnhandledException without issuing any
HTTP request or sleeping. -/
theorem loop_fallback_unreachable (cfg : WallhavenAPI) (trace : Nat → AttemptOutcome)
    (to_json : Bool) (method url rawUrl : String) (params : List (String × String)) :
    (1 ≤ max_retries cfg →
      (_request cfg trace to_json method url params).2 ≠
        .error (.unhandledException (some "Request failed after all retry attempts.") none) ∧
      (_raw_request cfg trace rawUrl).2 ≠
        .error (.unhandledException (some "Failed to download after multiple attempts.") none)) ∧
    (∀ m d, cfg.requestslimit_timeout = some (m, d) → m ≤ 0 →
      _request cfg trace to_json method url params =
        ([], .error (.unhandledException (some "Request failed after all retry attempts.") none)) ∧
      _raw_request cfg trace rawUrl =
        ([], .error (.unhandledException
          (some "Failed to download after multiple attempts.") none))) := by
  constructor
  · intro hm
    have hfuel : (max_retries cfg).toNat ≠ 0 := by omega
    exact ⟨requestAttempt_no_fallthrough cfg trace to_json method url
        (max_retries cfg).toNat hfuel 0 params,
      rawAttempt_no_fallthrough cfg trace rawUrl (max_retries cfg).toNat hfuel 0⟩
  · intro m d hb hm
    have hmr : max_retries cfg = m := by simp [max_retries, hb]
    have h0 : (max_retries cfg).toNat = 0 := by rw [hmr]; exact Int.toNat_of_nonpos hm
    rw [_request, _raw_request, h0]
    exact ⟨rfl, rfl⟩

/-- C10 witness: a configured budget of zero attempts raises the generic
fallback on both paths with no HTTP attempt, even against an all-429 server. -/
theorem loop_fallback_unreachable_witness :
    _request cfgZero trace429 true "get" "https://wallhaven.cc/api/v1/search" [] =
      ([], .error (.unhandledException (some "Request failed after all retry attempts.") none)) ∧
    _raw_request cfgZero trace429 "https://w.wallhaven.cc/full/x.jpg" =
      ([], .error (.unhandledException
        (some "Failed to download after multiple attempts.") none)) :=
  (loop_fallback_unreachable cfgZero trace429 true "get"
      "https://wallhaven.cc/api/v1/search" "https://w.wallhaven.cc/full/x.jpg" []).2
    0 1 rfl (by norm_num)

/-- Every event the _request loop logs is either a sleep of the configured
delay or a structured attempt with the given method, URL and the
key-injected params. -/
theorem requestAttempt_events (cfg : WallhavenAPI) (trace : Nat → AttemptOutcome)
    (to_json : Bool) (method url : String) :
    ∀ fuel attempt params ev,
      ev ∈ (requestAttempt cfg trace to_json method url attempt fuel params).1 →
      ev = Event.sleep (delay cfg) ∨
      ev = Event.structuredRequest method url (injectApiKey cfg params) := by
  intro fuel
  induction fuel with
  | zero =>
    intro attempt params ev hev
    simp only [requestAttempt] at hev
    simp at hev
  | succ n ih =>
    intro attempt params ev hev
    simp only [requestAttempt] at hev
    cases htr : trace attempt with
    | transportError msg =>
      rw [htr] at hev
      by_cases hn : n = 0
      · subst hn
        simp at hev
        exact Or.inr hev
      · simp [hn] at hev
        rcases hev with h1 | h2 | h3
        · exact Or.inr h1
        · exact Or.inl h2
        · have := ih (attempt + 1) (injectApiKey cfg params) ev h3
          rwa [injectApiKey_idem] at this
    | response r =>
      rw [htr] at hev
      by_cases h429 : r.status_code = 429
      · by_cases hn : n = 0
        · subst hn
          simp [h429] at hev
          exact Or.inr hev
        · simp [h429, hn] at hev
          rcases hev with h1 | h2 | h3
          · exact Or.inr h1
          · exact Or.inl h2
          · have := ih (attempt + 1) (injectApiKey cfg params) ev h3
            rwa [injectApiKey_idem] at this
      · by_cases h401 : r.status_code = 401
        · simp [h429, h401] at hev
          exact Or.inr hev
        · by_cases h404 : r.status_code = 404
          · simp [h429, h401, h404] at hev
            exact Or.inr hev
          · by_cases h200 : r.status_code = 200
            · by_cases hj : to_json
              · cases hjson : r.json <;>
                  simp [h429, h401, h404, h200, hj, hjson] at hev <;>
                  exact Or.inr hev
              · simp [h429, h401, h404, h200, hj] at hev
                exact Or.inr hev
            · simp [h429, h401, h404, h200] at hev
              exact Or.inr hev

/-- C3: wallpaper issues its structured GET to w/{id} (its event log is that
of the underlying _request, every attempt naming that method and URL); an
UnhandledException with status 404 is re-raised as NoWallpaperError carrying
the id, every other failure and every success passes through unchanged. -/
theorem wallpaper_404_translation (cfg : WallhavenAPI) (trace : Nat → AttemptOutcome)
    (wid : String) :
    ((wallpaper cfg trace wid).1 =
      (_request cfg trace true "get" (_format_url cfg.base_url ["w", wid]) []).1) ∧
    (∀ ev ∈ (wallpaper cfg trace wid).1,
      ev = Event.sleep (delay cfg) ∨
      ev = Event.structuredRequest "get" (_format_url cfg.base_url ["w", wid])
        (injectApiKey cfg [])) ∧
    (∀ e, (_request cfg trace true "get" (_format_url cfg.base_url ["w", wid]) []).2 =
        .error e → is_unhandled_404 e = true →
      (wallpaper cfg trace wid).2 = .error (.noWallpaperError wid none 404)) ∧
    (∀ e, (_request cfg trace true "get" (_format_url cfg.base_url ["w", wid]) []).2 =
        .error e → is_unhandled_404 e = false →
      (wallpaper cfg trace wid).2 = .error e) ∧
    (∀ v, (_request cfg trace true "get" (_format_url cfg.base_url ["w", wid]) []).2 =
        .ok v → (wallpaper cfg trace wid).2 = .ok v) := by
  have h1 : (wallpaper cfg trace wid).1 =
      (_request cfg trace true "get" (_format_url cfg.base_url ["w", wid]) []).1 := by
    cases hres : (_request cfg trace true "get" (_format_url cfg.base_url ["w", wid]) []).2 with
    | ok v => simp [wallpaper, hres]
    | error e =>
      cases e <;> simp [wallpaper, hres]
      split <;> rfl
  refine ⟨h1, ?_, ?_, ?_, ?_⟩
  · intro ev hev
    rw [h1, _request] at hev
    exact requestAttempt_events cfg trace true "get" (_format_url cfg.base_url ["w", wid])
      (max_retries cfg).toNat 0 [] ev hev
  · intro e he h404e
    cases e with
    | unhandledException msg sc =>
      have hsc : sc = some 404 := by simpa [is_unhandled_404] using h404e
      subst hsc
      simp [wallpaper, he]
    | requestsLimitError m s => simp [is_unhandled_404] at h404e
    | apiKeyError m s => simp [is_unhandled_404] at h404e
    | noWallpaperError i m s => simp [is_unhandled_404] at h404e
  · intro e he h404e
    cases e with
    | unhandledException msg sc =>
      have hsc : ¬ sc = some 404 := by simpa [is_unhandled_404] using h404e
      simp [wallpaper, he, hsc]
    | requestsLimitError m s => simp [wallpaper, he]
    | apiKeyError m s => simp [wallpaper, he]
    | noWallpaperError i m s => simp [wallpaper, he]
  · intro v hv
    simp [wallpaper, hv]

/-- C3 witness: a 404 on the metadata endpoint is re-raised as
NoWallpaperError carrying the requested id. -/
theorem wallpaper_404_translation_witness :
    (wallpaper cfgDefault trace404 "abc123").2 =
      .error (.noWallpaperError "abc123" none 404) :=
  (wallpaper_404_translation cfgDefault trace404 "abc123").2.2.1
    (.unhandledException (some ("404 Not Found for URL: " ++ resp404.url)) (some 404))
    rfl rfl

/-- C4: is_wallpaper_exists logs the same events as wallpaper, returns true
exactly on success, returns false exactly when wallpaper raises
NoWallpaperError, and propagates every other failure unswallowed. -/
theorem exists_check_swallow (cfg : WallhavenAPI) (trace : Nat → AttemptOutcome)
    (wid : String) :
    ((is_wallpaper_exists cfg trace wid).1 = (wallpaper cfg trace wid).1) ∧
    (∀ v, (wallpaper cfg trace wid).2 = .ok v →
      (is_wallpaper_exists cfg trace wid).2 = .ok true) ∧
    ((is_wallpaper_exists cfg trace wid).2 = .ok false ↔
      ∃ e, (wallpaper cfg trace wid).2 = .error e ∧ isNoWallpaper e = true) ∧
    (∀ e, (wallpaper cfg trace wid).2 = .error e → isNoWallpaper e = false →
      (is_wallpaper_exists cfg trace wid).2 = .error e) := by
  refine ⟨?_, ?_, ?_, ?_⟩
  · cases hres : (wallpaper cfg trace wid).2 with
    | ok v => simp [is_wallpaper_exists, hres]
    | error e => cases e <;> simp [is_wallpaper_exists, hres]
  · intro v hv
    simp [is_wallpaper_exists, hv]
  · constructor
    · intro hfalse
      cases hres : (wallpaper cfg trace wid).2 with
      | ok v => simp [is_wallpaper_exists, hres] at hfalse
      | error e =>
        cases e with
        | noWallpaperError i m s => exact ⟨.noWallpaperError i m s, rfl, rfl⟩
        | requestsLimitError m s => simp [is_wallpaper_exists, hres] at hfalse
        | apiKeyError m s => simp [is_wallpaper_exists, hres] at hfalse
        | unhandledException m s => simp [is_wallpaper_exists, hres] at hfalse
    · rintro ⟨e, he, hno⟩
      cases e with
      | noWallpaperError i m s => simp [is_wallpaper_exists, he]
      | requestsLimitError m s => simp [isNoWallpaper] at hno
      | apiKeyError m s => simp [isNoWallpaper] at hno
      | unhandledException m s => simp [isNoWallpaper] at hno
  · intro e he hno
    cases e with
    | noWallpaperError i m s => simp [isNoWallpaper] at hno
    | requestsLimitError m s => simp [is_wallpaper_exists, he]
    | apiKeyError m s => simp [is_wallpaper_exists, he]
    | unhandledException m s => simp [is_wallpaper_exists, he]

/-- C4 witness: against an all-404 metadata endpoint the existence check
returns false. -/
theorem exists_check_swallow_witness :
    (is_wallpaper_exists cfgDefault trace404 "abc123").2 = .ok false :=
  (exists_check_swallow cfgDefault trace404 "abc123").2.2.1.mpr
    ⟨.noWallpaperError "abc123" none 404, rfl, rfl⟩

/-- C5: when the metadata lookup succeeds with an envelope resolving to an
asset URL and the raw stream succeeds, download_wallpaper with no destination
returns the concatenation of all streamed chunks unchanged, and with a
non-empty destination path it creates the parent directory of the absolute
path, writes exactly the non-empty chunks in order, and returns the absolute
form of the given path. -/
theorem download_roundtrip (cfg : WallhavenAPI) (metaTrace rawTrace : Nat → AttemptOutcome)
    (abspath dirname : String → String) (wid : String) (env : PyVal) (url : String)
    (resp : HTTPResponse)
    (h1 : (wallpaper cfg metaTrace wid).2 = .ok (.json env))
    (h2 : dataPath env = some url)
    (h3 : (_raw_request cfg rawTrace url).2 = .ok resp) :
    (download_wallpaper cfg metaTrace rawTrace abspath dirname wid none).2 =
      .content resp.chunks.flatten ∧
    (∀ fp : String, fp ≠ "" →
      (download_wallpaper cfg metaTrace rawTrace abspath dirname wid (some fp)).2 =
        .saved (abspath fp)
          ⟨dirname (abspath fp), abspath fp,
           (resp.chunks.filter fun c => !c.isEmpty).flatten⟩) := by
  constructor
  · simp [download_wallpaper, h1, h2, h3]
  · intro fp hfp
    simp [download_wallpaper, h1, h2, h3, hfp]

/-- C5 witness: a three-chunk stream with an empty middle chunk: no
destination returns the joined bytes, a destination records the directory
creation, the filtered write and the absolute path. -/
theorem download_roundtrip_witness :
    (download_wallpaper cfgDefault traceMeta traceChunks absW dirW "94x38z" none).2 =
      .content respChunks.chunks.flatten ∧
    (download_wallpaper cfgDefault traceMeta traceChunks absW dirW "94x38z"
        (some "pics/x.jpg")).2 =
      .saved (absW "pics/x.jpg")
        ⟨dirW (absW "pics/x.jpg"), absW "pics/x.jpg",
         (respChunks.chunks.filter fun c => !c.isEmpty).flatten⟩ := by
  have h := download_roundtrip cfgDefault traceMeta traceChunks absW dirW "94x38z"
    envW "https://w.wallhaven.cc/full/x.jpg" respChunks rfl rfl rfl
  exact ⟨h.1, h.2 "pics/x.jpg" (by decide)⟩

/-- C6: with no credential configured, settings and my_collections raise
ApiKeyError locally with an empty event log, before any HTTP request exists;
with a credential configured each is exactly its structured GET. -/
theorem credential_guard (cfg : WallhavenAPI) (trace : Nat → AttemptOutcome) :
    (cfg.api_key = none →
      settings cfg trace =
        ([], .error (.apiKeyError (some "API key required to retrieve settings.") 401)) ∧
      my_collections cfg trace =
        ([], .error (.apiKeyError (some "API key required to retrieve collections.") 401))) ∧
    (∀ k, cfg.api_key = some k →
      settings cfg trace =
        _request cfg trace true "get" (_format_url cfg.base_url ["settings"]) [] ∧
      my_collections cfg trace =
        _request cfg trace true "get" (_format_url cfg.base_url ["collections"]) []) := by
  constructor
  · intro h
    constructor <;> simp [settings, my_collections, h]
  · intro k h
    constructor <;> simp [settings, my_collections, h]

/-- C6 witness: the default client has no key, so both guarded operations
fail locally with the respective messages and no event. -/
theorem credential_guard_witness :
    settings cfgDefault traceOkJson =
      ([], .error (.apiKeyError (some "API key required to retrieve settings.") 401)) ∧
    my_collections cfgDefault traceOkJson =
      ([], .error (.apiKeyError (some "API key required to retrieve collections.") 401)) :=
  (credential_guard cfgDefault traceOkJson).1 rfl

/-! Lemmas for the page query parameter. -/

theorem setWhen_false (k v : String) (l : List (String × String)) :
    setWhen false k v l = l := rfl

theorem search_params_page_some (a : SearchArgs) (p : Int) (hp : a.page = some p)
    (h0 : p ≠ 0) : dictGet "page" (search_params a) = some (toString p) := by
  simp only [search_params]
  rw [dictGet_setWhen_ne _ _ _ _ _ (by decide)]
  rw [hp]
  have ht : intTruthy (some p) = true := by simp [intTruthy, h0]
  rw [ht, dictGet_setWhen_self]
  simp

theorem search_params_page_none (a : SearchArgs) (hp : a.page = none) :
    dictGet "page" (search_params a) = none := by
  simp only [search_params, hp]
  rw [dictGet_setWhen_ne _ _ _ _ _ (by decide)]
  rw [show intTruthy none = false from rfl, setWhen_false]
  rw [dictGet_setWhen_ne _ _ _ _ _ (by decide)]
  rw [dictGet_setWhen_ne _ _ _ _ _ (by decide)]
  rw [dictGet_setWhen_ne _ _ _ _ _ (by decide)]
  rw [dictGet_setWhen_ne _ _ _ _ _ (by decide)]
  rw [dictGet_setWhen_ne _ _ _ _ _ (by decide)]
  rw [dictGet_setWhen_ne _ _ _ _ _ (by decide)]
  rw [dictGet_setWhen_ne _ _ _ _ _ (by decide)]
  rw [dictGet_setWhen_ne _ _ _ _ _ (by decide)]
  rw [dictGet_setWhen_ne _ _ _ _ _ (by decide)]
  rw [dictGet_setWhen_ne _ _ _ _ _ (by decide)]
  rfl

/-- Any structured event logged by _request carries the key-injected caller
params. -/
theorem structured_params_of_mem (cfg : WallhavenAPI) (trace : Nat → AttemptOutcome)
    (to_json : Bool) (method url : String) (params : List (String × String))
    (ev : Event) (m u : String) (ps : List (String × String))
    (hev : ev ∈ (_request cfg trace to_json method url params).1)
    (heq : ev = Event.structuredRequest m u ps) :
    ps = injectApiKey cfg params := by
  rw [_request] at hev
  rcases requestAttempt_events cfg trace to_json method url
      (max_retries cfg).toNat 0 params ev hev with h | h
  · rw [heq] at h
    simp at h
  · rw [heq] at h
    simp only [Event.structuredRequest.injEq] at h
    exact h.2.2

/-- C9: a positive page number supplied to search or collection_wallpapers is
sent as the key page mapped to its decimal string in the query parameters of
every HTTP attempt; with no page supplied no page key is sent. -/
theorem page_param (cfg : WallhavenAPI) (trace : Nat → AttemptOutcome) (a : SearchArgs)
    (user cid : String) :
    (∀ p : Int, 0 < p → a.page = some p →
      ∀ ev ∈ (search cfg trace a).1, ∀ m u ps, ev = Event.structuredRequest m u ps →
        dictGet "page" ps = some (toString p)) ∧
    (∀ p : Int, 0 < p →
      ∀ ev ∈ (collection_wallpapers cfg trace user cid (some p)).1,
        ∀ m u ps, ev = Event.structuredRequest m u ps →
          dictGet "page" ps = some (toString p)) ∧
    (a.page = none →
      ∀ ev ∈ (search cfg trace a).1, ∀ m u ps, ev = Event.structuredRequest m u ps →
        dictGet "page" ps = none) ∧
    (∀ ev ∈ (collection_wallpapers cfg trace user cid none).1,
      ∀ m u ps, ev = Event.structuredRequest m u ps → dictGet "page" ps = none) := by
  refine ⟨?_, ?_, ?_, ?_⟩
  · intro p hp hpage ev hev m u ps heq
    simp only [search] at hev
    have hps := structured_params_of_mem cfg trace true "get"
      (_format_url cfg.base_url ["search"]) (search_params a) ev m u ps hev heq
    rw [hps, dictGet_injectApiKey cfg "page" _ (by decide)]
    exact search_params_page_some a p hpage (by omega)
  · intro p hp ev hev m u ps heq
    simp only [collection_wallpapers] at hev
    have hps := structured_params_of_mem cfg trace true "get"
      (_format_url cfg.base_url ["collections", user, cid]) [("page", toString p)] ev m u ps
      hev heq
    rw [hps, dictGet_injectApiKey cfg "page" _ (by decide)]
    simp [dictGet]
  · intro hpage ev hev m u ps heq
    simp only [search] at hev
    have hps := structured_params_of_mem cfg trace true "get"
      (_format_url cfg.base_url ["search"]) (search_params a) ev m u ps hev heq
    rw [hps, dictGet_injectApiKey cfg "page" _ (by decide)]
    exact search_params_page_none a hpage
  · intro ev hev m u ps heq
    simp only [collection_wallpapers] at hev
    have hps := structured_params_of_mem cfg trace true "get"
      (_format_url cfg.base_url ["collections", user, cid]) [] ev m u ps hev heq
    rw [hps, dictGet_injectApiKey cfg "page" _ (by decide)]
    rfl

/-- C9 witness: a search for page 2 carries page mapped to the string 2 in
the sent parameters. -/
theorem page_param_witness :
    dictGet "page" (injectApiKey cfgDefault (search_params argsPage)) =
      some (toString (2 : Int)) := by
  have hmem : Event.structuredRequest "get" (_format_url cfgDefault.base_url ["search"])
      (injectApiKey cfgDefault (search_params argsPage)) ∈
      (search cfgDefault traceOkJson argsPage).1 := by
    show _ ∈ [Event.structuredRequest "get" (_format_url cfgDefault.base_url ["search"])
      (injectApiKey cfgDefault (search_params argsPage))]
    exact List.mem_singleton.mpr rfl
  exact (page_param cfgDefault traceOkJson argsPage "someuser" "kx000").1 2 (by norm_num)
    rfl _ hmem "get" (_format_url cfgDefault.base_url ["search"])
    (injectApiKey cfgDefault (search_params argsPage)) rfl

end Wallhaven
